import Mathlib

/-!
Verification development for the map-poster generator
(`generate_poster.py`).  The embedding models:

* the `THEME` road-color and road-width dictionaries as association
  lists with a `dictGet` operation mirroring Python's `dict.get`;
* a road feature's `highway` tag as `Tag`: a single string, a list of
  strings, or a non-string non-list value (`nan`, covering the
  missing/NaN case);
* `get_road_style` (source lines 37-45), returning `none` exactly when
  Python would raise (indexing `[0]` on an empty list);
* the per-category bucket masks and the remainder mask of
  `render_poster` (source lines 126-143);
* the layered draw sequence of `render_poster` as a trace of events in
  an `Except` monad: the water and park plots are wrapped in
  try/except in the source, the road-bucket and remainder plots are
  not, so only the former absorb failures;
* label placement and coordinate formatting (source lines 149-196),
  with coordinates as rationals and `%.4f` modelled as
  floor(q * 10000 + 1/2) scaling.
-/

/-- A road feature's `highway` tag: a plain string, a list of strings,
or any non-string non-list value (e.g. missing / NaN). -/
inductive Tag where
  | str : String → Tag
  | list : List String → Tag
  | nan : Tag
deriving DecidableEq

/-- `THEME['roads']` from the source. -/
def THEME_roads : List (String × String) :=
  [("motorway", "#00d4ff"), ("trunk", "#00c4ec"), ("primary", "#00b4d8"),
   ("secondary", "#0096c7"), ("tertiary", "#0077b6"),
   ("residential", "#023e8a"), ("default", "#014f86")]

/-- `THEME['road_widths']` from the source (widths as rationals). -/
def THEME_road_widths : List (String × ℚ) :=
  [("motorway", (25 : ℚ)/10), ("trunk", 2), ("primary", (15 : ℚ)/10),
   ("secondary", (12 : ℚ)/10), ("tertiary", (8 : ℚ)/10),
   ("residential", (3 : ℚ)/10), ("default", (2 : ℚ)/10)]

/-- Python `d[k]` on a string-keyed dict: `some` value if present. -/
def dictIndex (d : List (String × α)) (k : String) : Option α :=
  (d.find? (fun p => p.1 == k)).map Prod.snd

/-- Python `d.get(k, fallback)`. -/
def dictGet (d : List (String × α)) (k : String) (fallback : α) : α :=
  (dictIndex d k).getD fallback

/-- `(THEME['roads']['default'], THEME['road_widths']['default'])`,
the pair used as fallback in `get_road_style` and as the style of the
remainder plot (source lines 145-146). -/
def default_style : String × ℚ :=
  ((dictIndex THEME_roads "default").getD "",
   (dictIndex THEME_road_widths "default").getD 0)

/-- The two `dict.get` lookups of `get_road_style` for a string key
(source lines 42-43). -/
def style_of_string (x : String) : String × ℚ :=
  (dictGet THEME_roads x default_style.1,
   dictGet THEME_road_widths x default_style.2)

/-- `get_road_style` (source lines 37-45).  A list tag is replaced by
its first element; an empty list makes Python raise `IndexError`,
modelled as `none`.  A non-string non-list tag hits neither dict key,
so both `dict.get` calls fall back to the defaults. -/
def get_road_style : Tag → Option (String × ℚ)
  | Tag.str x => some (style_of_string x)
  | Tag.list [] => none
  | Tag.list (x :: _) => some (style_of_string x)
  | Tag.nan => some default_style

/-- `road_order` (source line 124). -/
def road_order : List String :=
  ["residential", "tertiary", "secondary", "primary", "trunk", "motorway"]

/-- The per-category mask applied to each edge's `highway` value
(source lines 127-130): equality for a string tag, membership
(`road_type in x`) for a list tag, `False` otherwise. -/
def matchesBucket (road_type : String) : Tag → Bool
  | Tag.str x => x == road_type
  | Tag.list x => x.contains road_type
  | Tag.nan => false

/-- The remainder mask (source lines 139-142): a string tag not in
`plotted_types`, a list tag none of whose elements is in
`plotted_types`, and `True` for any other value. -/
def inRemainder : Tag → Bool
  | Tag.str x => !(road_order.contains x)
  | Tag.list x => !(x.any (fun t => road_order.contains t))
  | Tag.nan => true

/-- Size of the bucket for one category: `len(edges[mask])`. -/
def bucket_count (edges : List Tag) (road_type : String) : Nat :=
  (edges.filter (matchesBucket road_type)).length

/-- Size of the remainder bucket: `len(remaining)`. -/
def remainder_count (edges : List Tag) : Nat :=
  (edges.filter inRemainder).length

/-- Sum of the six named bucket sizes plus the remainder size. -/
def total_bucket_count (edges : List Tag) : Nat :=
  (road_order.map (bucket_count edges)).sum + remainder_count edges

/-- How many buckets (named or remainder) one feature falls into. -/
def bucketMultiplicity (t : Tag) : Nat :=
  road_order.countP (fun c => matchesBucket c t) +
    (if inRemainder t then 1 else 0)

/-- Zero-pad a natural number to four digits (the fractional digits of
a `%.4f` format). -/
def pad4 (n : Nat) : String :=
  String.mk (List.replicate (4 - (toString n).length) (Char.ofNat 48)) ++ toString n

/-- Python's `f-string` `:.4f` conversion, modelled on rationals:
the magnitude is scaled by `10^4` and rounded to the nearest integer
(`floor (x * 10000 + 1/2)`); the source only ever formats absolute
values, where this agrees with the float formatting on all inputs that
are not exact half-way ties. -/
def fmt4 (q : ℚ) : String :=
  (if q < 0 then "-" else "") ++
    toString ((⌊|q| * 10000 + 1/2⌋).toNat / 10000) ++ "." ++
    pad4 ((⌊|q| * 10000 + 1/2⌋).toNat % 10000)

/-- The coordinate label text (source lines 170-172):
`f"{abs(lat):.4f}°{lat_dir}  {abs(lon):.4f}°{lon_dir}"` with
`lat_dir = 'N' if lat >= 0 else 'S'` and
`lon_dir = 'W' if lon < 0 else 'E'`. -/
def coord_text (lat lon : ℚ) : String :=
  fmt4 |lat| ++ "°" ++ (if 0 ≤ lat then "N" else "S") ++ "  " ++
    fmt4 |lon| ++ "°" ++ (if lon < 0 then "W" else "E")

/-- The realized plot extent (`ax.get_xlim()` / `ax.get_ylim()`,
source lines 153-154). -/
structure Bounds where
  xmin : ℚ
  xmax : ℚ
  ymin : ℚ
  ymax : ℚ
deriving DecidableEq

/-- One `ax.text(...)` call. -/
structure TextCall where
  x : ℚ
  y : ℚ
  text : String
  fontsize : ℚ
  ha : String
  va : String
deriving DecidableEq

/-- The city-name text call (source lines 157-167). -/
def city_text (b : Bounds) (city_name : String) : TextCall :=
  { x := (b.xmin + b.xmax) / 2, y := b.ymin + (b.ymax - b.ymin) * (6/100),
    text := city_name.toUpper, fontsize := 72, ha := "center", va := "bottom" }

/-- The coordinates text call (source lines 173-183). -/
def coord_label (b : Bounds) (lat lon : ℚ) : TextCall :=
  { x := (b.xmin + b.xmax) / 2, y := b.ymin + (b.ymax - b.ymin) * (3/100),
    text := coord_text lat lon, fontsize := 24, ha := "center", va := "bottom" }

/-- The region/country text call (source lines 186-196). -/
def region_text (b : Bounds) (region : String) : TextCall :=
  { x := (b.xmin + b.xmax) / 2, y := b.ymax - (b.ymax - b.ymin) * (3/100),
    text := region.toUpper, fontsize := 28, ha := "center", va := "top" }

/-- One drawing / text event emitted by `render_poster`. -/
inductive Event where
  | background
  | water
  | parks
  | bucket : String → Event
  | remainder
  | labelCity
  | labelCoords
  | labelRegion
deriving DecidableEq

/-- Which matplotlib plot calls raise, abstracting the backend: in the
source only the water and park `plot` calls are inside `try/except`. -/
structure PlotOracle where
  waterFails : Bool
  parksFails : Bool
  bucketFails : String → Bool
  remainderFails : Bool

/-- The `try: water = ox.features_from_point(...) except: water = None`
pattern of `fetch_map_data` (source lines 69-76 and 80-87): a failing
optional fetch yields `None`, not an error. -/
def fetch_optional (result : Except Unit (List Tag)) : Option (List Tag) :=
  match result with
  | Except.ok w => some w
  | Except.error _ => none

/-- The `for road_type in road_order` loop (source lines 126-135):
each nonempty bucket is plotted with one `plot` call; a raising bucket
plot is not wrapped in `try/except`, so it propagates. -/
def drawBuckets (o : PlotOracle) (edges : List Tag) :
    List String → Except Unit (List Event)
  | [] => Except.ok []
  | c :: rest =>
    if 0 < bucket_count edges c then
      if o.bucketFails c then Except.error ()
      else
        match drawBuckets o edges rest with
        | Except.error e => Except.error e
        | Except.ok tr => Except.ok (Event.bucket c :: tr)
    else drawBuckets o edges rest

/-- The water layer section (source lines 107-112): skipped when the
collection is absent or empty, and a raising `plot` call is swallowed
by the `try/except`, leaving the layer out. -/
def waterEvents (o : PlotOracle) (water : Option (List Tag)) : List Event :=
  match water with
  | none => []
  | some w => if 0 < w.length then (if o.waterFails then [] else [Event.water]) else []

/-- The parks layer section (source lines 115-120), same policy as the
water layer. -/
def parksEvents (o : PlotOracle) (parks : Option (List Tag)) : List Event :=
  match parks with
  | none => []
  | some p => if 0 < p.length then (if o.parksFails then [] else [Event.parks]) else []

/-- The remainder plot (source lines 144-146): one `plot` call when
the remainder is nonempty; it is not wrapped in `try/except`, so a
raising call propagates. -/
def remainderEvents (o : PlotOracle) (edges : List Tag) : Except Unit (List Event) :=
  if 0 < remainder_count edges then
    (if o.remainderFails then Except.error () else Except.ok [Event.remainder])
  else Except.ok []

/-- The label section (source lines 149-196): three `ax.text` calls
when labels are enabled, none otherwise. -/
def labelEvents (show_labels : Bool) : List Event :=
  if show_labels then [Event.labelCity, Event.labelCoords, Event.labelRegion] else []

/-- The draw/text sequence of `render_poster` (source lines 97-196) as
an event trace: background fill, then the water layer, then parks,
then the six road buckets in `road_order`, then the remainder bucket,
then the three labels.  Road-bucket and remainder plot failures are
not caught in the source and so abort the whole render. -/
def render_poster (o : PlotOracle) (water parks : Option (List Tag))
    (edges : List Tag) (show_labels : Bool) : Except Unit (List Event) :=
  match drawBuckets o edges road_order with
  | Except.error e => Except.error e
  | Except.ok bEv =>
    match remainderEvents o edges with
    | Except.error e => Except.error e
    | Except.ok rEv =>
      Except.ok (Event.background ::
        (waterEvents o water ++ parksEvents o parks ++ bEv ++ rEv ++ labelEvents show_labels))

/-- Layer draw events, as opposed to text events. -/
def isDraw : Event → Bool
  | Event.background => true
  | Event.water => true
  | Event.parks => true
  | Event.bucket _ => true
  | Event.remainder => true
  | _ => false

/-- The fixed master order of layer draws. -/
def masterDrawOrder : List Event :=
  [Event.background, Event.water, Event.parks] ++
    road_order.map Event.bucket ++ [Event.remainder]

/-- A `PlotOracle` under which no plot call raises. -/
def noFail : PlotOracle :=
  { waterFails := false, parksFails := false,
    bucketFails := fun _ => false, remainderFails := false }

/-! ## Helper lemmas -/

lemma total_bucket_count_cons (t : Tag) (fs : List Tag) :
    total_bucket_count (t :: fs) = bucketMultiplicity t + total_bucket_count fs := by
  simp only [total_bucket_count, bucket_count, remainder_count, bucketMultiplicity,
    road_order, List.filter_cons, List.countP_cons, List.map_cons, List.map_nil,
    List.sum_cons, List.sum_nil, List.countP_nil]
  split_ifs <;> simp <;> omega

lemma total_eq_sum_mult (fs : List Tag) :
    total_bucket_count fs = (fs.map bucketMultiplicity).sum := by
  induction fs with
  | nil => rfl
  | cons t fs ih => rw [total_bucket_count_cons, List.map_cons, List.sum_cons, ih]

lemma one_le_bucketMultiplicity (t : Tag) : 1 ≤ bucketMultiplicity t := by
  cases t with
  | nan => decide
  | str s =>
    by_cases h : road_order.contains s
    · have : 0 < road_order.countP (fun c => matchesBucket c (Tag.str s)) := by
        rw [List.countP_pos_iff]
        refine ⟨s, by simpa using h, by simp [matchesBucket]⟩
      unfold bucketMultiplicity
      omega
    · unfold bucketMultiplicity inRemainder
      rw [if_pos (by simpa using h)]
      omega
  | list ss =>
    by_cases h : ss.any (fun t => road_order.contains t)
    · have : 0 < road_order.countP (fun c => matchesBucket c (Tag.list ss)) := by
        rw [List.countP_pos_iff]
        rcases List.any_eq_true.mp h with ⟨x, hx, hmem⟩
        exact ⟨x, by simpa using hmem, by simp [matchesBucket]; simpa using hx⟩
      unfold bucketMultiplicity
      omega
    · unfold bucketMultiplicity inRemainder
      rw [if_pos (by simp_all)]
      omega

lemma bucketMultiplicity_str (s : String) : bucketMultiplicity (Tag.str s) = 1 := by
  by_cases h : road_order.contains s
  · have hmem : s ∈ road_order := by simpa using h
    simp only [road_order, List.mem_cons, List.not_mem_nil, or_false] at hmem
    rcases hmem with h1 | h1 | h1 | h1 | h1 | h1 <;> subst h1 <;> decide
  · have hcount : road_order.countP (fun c => matchesBucket c (Tag.str s)) = 0 := by
      rw [List.countP_eq_zero]
      intro c hc
      simp only [matchesBucket, beq_iff_eq]
      rintro rfl
      have hns : s ∉ road_order := by simpa using h
      exact hns hc
    have hrem : inRemainder (Tag.str s) = true := by
      simp only [inRemainder, Bool.not_eq_true']
      simpa using h
    unfold bucketMultiplicity
    rw [hcount, if_pos hrem]

lemma bucketMultiplicity_nan : bucketMultiplicity Tag.nan = 1 := by decide

lemma length_le_sum_mult (fs : List Tag) :
    fs.length ≤ (fs.map bucketMultiplicity).sum := by
  induction fs with
  | nil => simp
  | cons t fs ih =>
    have := one_le_bucketMultiplicity t
    simp only [List.length_cons, List.map_cons, List.sum_cons]
    omega

lemma matchesBucket_iff (c : String) (t : Tag) :
    matchesBucket c t = true ↔ (t = Tag.str c ∨ ∃ ss, t = Tag.list ss ∧ c ∈ ss) := by
  cases t <;> simp [matchesBucket] <;> aesop

lemma inRemainder_iff (t : Tag) :
    inRemainder t = true ↔ ∀ c ∈ road_order, matchesBucket c t = false := by
  cases t <;> simp [inRemainder, matchesBucket] <;> aesop

lemma drawBuckets_ok (o : PlotOracle) (edges : List Tag) (cs : List String)
    (tr : List Event) (h : drawBuckets o edges cs = Except.ok tr) :
    tr = (cs.filter (fun c => decide (0 < bucket_count edges c))).map Event.bucket := by
  induction cs generalizing tr with
  | nil =>
    simp only [drawBuckets] at h
    cases h
    simp
  | cons c rest ih =>
    rw [drawBuckets] at h
    by_cases h1 : 0 < bucket_count edges c
    · rw [if_pos h1] at h
      by_cases h2 : o.bucketFails c = true
      · rw [if_pos h2] at h
        cases h
      · rw [if_neg h2] at h
        cases hr : drawBuckets o edges rest with
        | error e => rw [hr] at h; cases h
        | ok tr2 =>
          rw [hr] at h
          cases h
          simp only [List.filter_cons, decide_eq_true_eq, if_pos h1, List.map_cons]
          rw [ih tr2 hr]
    · rw [if_neg h1] at h
      have := ih tr h
      simp only [List.filter_cons, decide_eq_true_eq, if_neg h1]
      exact this

lemma drawBuckets_noFail (o : PlotOracle) (edges : List Tag) (cs : List String)
    (hb : ∀ c, o.bucketFails c = false) :
    drawBuckets o edges cs =
      Except.ok ((cs.filter (fun c => decide (0 < bucket_count edges c))).map Event.bucket) := by
  induction cs with
  | nil => simp [drawBuckets]
  | cons c rest ih =>
    rw [drawBuckets]
    by_cases h1 : 0 < bucket_count edges c
    · rw [if_pos h1, if_neg (by simp [hb c]), ih]
      simp [List.filter_cons, h1]
    · rw [if_neg h1, ih]
      simp [List.filter_cons, h1]

lemma waterEvents_cases (o : PlotOracle) (w : Option (List Tag)) :
    waterEvents o w = [] ∨ waterEvents o w = [Event.water] := by
  cases w with
  | none => exact Or.inl rfl
  | some l =>
    simp only [waterEvents]
    by_cases h1 : 0 < l.length
    · by_cases h2 : o.waterFails = true
      · rw [if_pos h1, if_pos h2]
        exact Or.inl rfl
      · rw [if_pos h1, if_neg h2]
        exact Or.inr rfl
    · rw [if_neg h1]
      exact Or.inl rfl

lemma parksEvents_cases (o : PlotOracle) (p : Option (List Tag)) :
    parksEvents o p = [] ∨ parksEvents o p = [Event.parks] := by
  cases p with
  | none => exact Or.inl rfl
  | some l =>
    simp only [parksEvents]
    by_cases h1 : 0 < l.length
    · by_cases h2 : o.parksFails = true
      · rw [if_pos h1, if_pos h2]
        exact Or.inl rfl
      · rw [if_pos h1, if_neg h2]
        exact Or.inr rfl
    · rw [if_neg h1]
      exact Or.inl rfl

lemma remainderEvents_ok (o : PlotOracle) (edges : List Tag) (rEv : List Event)
    (h : remainderEvents o edges = Except.ok rEv) :
    (rEv = [] ∧ remainder_count edges = 0) ∨
      (rEv = [Event.remainder] ∧ 0 < remainder_count edges) := by
  unfold remainderEvents at h
  by_cases h1 : 0 < remainder_count edges
  · rw [if_pos h1] at h
    by_cases h2 : o.remainderFails = true
    · rw [if_pos h2] at h
      cases h
    · rw [if_neg h2] at h
      cases h
      exact Or.inr ⟨rfl, h1⟩
  · rw [if_neg h1] at h
    cases h
    exact Or.inl ⟨rfl, by omega⟩

lemma filter_isDraw_map_bucket (l : List String) :
    (l.map Event.bucket).filter isDraw = l.map Event.bucket := by
  rw [List.filter_eq_self]
  intro e he
  rcases List.mem_map.mp he with ⟨c, _, rfl⟩
  rfl

lemma filter_isDraw_labelEvents (sl : Bool) :
    (labelEvents sl).filter isDraw = [] := by
  cases sl <;> rfl

lemma remainderEvents_noFail (o : PlotOracle) (edges : List Tag)
    (hr : o.remainderFails = false) :
    remainderEvents o edges =
      Except.ok (if 0 < remainder_count edges then [Event.remainder] else []) := by
  unfold remainderEvents
  by_cases h1 : 0 < remainder_count edges
  · rw [if_pos h1, if_pos h1, if_neg (by simp [hr])]
  · rw [if_neg h1, if_neg h1]

lemma waterEvents_nil (o : PlotOracle) (w : Option (List Tag))
    (h : w = none ∨ w = some [] ∨ o.waterFails = true) :
    waterEvents o w = [] := by
  rcases h with rfl | rfl | h
  · rfl
  · rfl
  · cases w with
    | none => rfl
    | some l =>
      simp only [waterEvents]
      by_cases h1 : 0 < l.length
      · rw [if_pos h1, if_pos h]
      · rw [if_neg h1]

lemma parksEvents_nil (o : PlotOracle) (p : Option (List Tag))
    (h : p = none ∨ p = some [] ∨ o.parksFails = true) :
    parksEvents o p = [] := by
  rcases h with rfl | rfl | h
  · rfl
  · rfl
  · cases p with
    | none => rfl
    | some l =>
      simp only [parksEvents]
      by_cases h1 : 0 < l.length
      · rw [if_pos h1, if_pos h]
      · rw [if_neg h1]

/-! ## Claim theorems -/

/-- Claim C1 fails on the code: the single feature tagged
`["residential", "motorway"]` passes both the residential and the
motorway bucket masks, so it is drawn twice and the bucket sizes sum
to 2 while there is only 1 input feature. -/
theorem C1_counterexample :
    total_bucket_count [Tag.list ["residential", "motorway"]] ≠
      [Tag.list ["residential", "motorway"]].length ∧
    total_bucket_count [Tag.list ["residential", "motorway"]] = 2 ∧
    matchesBucket "residential" (Tag.list ["residential", "motorway"]) = true ∧
    matchesBucket "motorway" (Tag.list ["residential", "motorway"]) = true := by
  refine ⟨?_, ?_, ?_, ?_⟩ <;> decide

/-- Claim C1 (amended): the seven buckets are a complete cover - every
feature lands in at least one bucket, so the bucket sizes sum to at
least the number of features, with the total equal to the sum of the
per-feature multiplicities; a feature whose tag is a plain string or
missing lands in exactly one bucket, and only a list tag containing
more than one distinct canonical category is drawn more than once. -/
theorem C1_bucket_cover (fs : List Tag) :
    fs.length ≤ total_bucket_count fs ∧
    total_bucket_count fs = (fs.map bucketMultiplicity).sum ∧
    (∀ t ∈ fs, 1 ≤ bucketMultiplicity t) ∧
    (∀ s, Tag.str s ∈ fs → bucketMultiplicity (Tag.str s) = 1) ∧
    (Tag.nan ∈ fs → bucketMultiplicity Tag.nan = 1) := by
  refine ⟨?_, total_eq_sum_mult fs, ?_, ?_, ?_⟩
  · rw [total_eq_sum_mult]
    exact length_le_sum_mult fs
  · intro t _
    exact one_le_bucketMultiplicity t
  · intro s _
    exact bucketMultiplicity_str s
  · intro _
    exact bucketMultiplicity_nan

theorem C1_bucket_cover_witness :
    [Tag.str "residential", Tag.nan].length ≤
      total_bucket_count [Tag.str "residential", Tag.nan] :=
  (C1_bucket_cover [Tag.str "residential", Tag.nan]).1

/-- Claim C2 fails on the code: a feature tagged
`["bridge", "motorway"]` resolves (first element) to `"bridge"`, which
is not canonical, so per the claim it should land in the remainder;
the code's membership mask instead places it in the motorway bucket
and keeps it out of the remainder. -/
theorem C2_counterexample :
    matchesBucket "motorway" (Tag.list ["bridge", "motorway"]) = true ∧
    inRemainder (Tag.list ["bridge", "motorway"]) = false ∧
    "bridge" ∉ road_order := by
  refine ⟨?_, ?_, ?_⟩ <;> decide

/-- Claim C2 (amended): bucket membership is decided by membership,
not first-element resolution - a feature belongs to the bucket of
category `c` exactly when its tag is the string `c` or a list
containing `c` anywhere, and to the remainder exactly when no
canonical category matches it. -/
theorem C2_bucket_membership (c : String) (t : Tag) :
    (matchesBucket c t = true ↔ (t = Tag.str c ∨ ∃ ss, t = Tag.list ss ∧ c ∈ ss)) ∧
    (inRemainder t = true ↔ ∀ x ∈ road_order, matchesBucket x t = false) :=
  ⟨matchesBucket_iff c t, inRemainder_iff t⟩

theorem C2_bucket_membership_witness :
    matchesBucket "motorway" (Tag.str "motorway") = true :=
  (C2_bucket_membership "motorway" (Tag.str "motorway")).1.mpr (Or.inl rfl)

/-- Claim C4: `get_road_style` returns exactly the registered
(color, width) pair for every category registered in the theme's
road-color and road-width mappings, and the `default` pair for any
unregistered string. -/
theorem C4_style_for (k : String) :
    (∀ col w, (k, col) ∈ THEME_roads → (k, w) ∈ THEME_road_widths →
        get_road_style (Tag.str k) = some (col, w)) ∧
    ((∀ q ∈ THEME_roads, q.1 ≠ k) → (∀ q ∈ THEME_road_widths, q.1 ≠ k) →
        get_road_style (Tag.str k) = some default_style) ∧
    default_style = ("#014f86", (2 : ℚ)/10) := by
  refine ⟨?_, ?_, rfl⟩
  · intro col w hc hw
    simp only [THEME_roads, List.mem_cons, List.not_mem_nil, or_false,
      Prod.mk.injEq] at hc
    rcases hc with ⟨rfl, rfl⟩ | ⟨rfl, rfl⟩ | ⟨rfl, rfl⟩ | ⟨rfl, rfl⟩ |
      ⟨rfl, rfl⟩ | ⟨rfl, rfl⟩ | ⟨rfl, rfl⟩ <;>
    · simp only [THEME_road_widths, List.mem_cons, List.not_mem_nil, or_false,
        Prod.mk.injEq] at hw
      simp at hw
      subst hw
      rfl
  · intro h1 h2
    have e1 : THEME_roads.find? (fun p => p.1 == k) = none := by
      rw [List.find?_eq_none]
      intro q hq
      simpa using h1 q hq
    have e2 : THEME_road_widths.find? (fun p => p.1 == k) = none := by
      rw [List.find?_eq_none]
      intro q hq
      simpa using h2 q hq
    simp [get_road_style, style_of_string, dictGet, dictIndex, e1, e2]

theorem C4_style_for_witness :
    get_road_style (Tag.str "footway") = some default_style :=
  (C4_style_for "footway").2.1 (by decide) (by decide)

/-- Claim C5: a list tag is resolved to its first element, all later
elements ignored: `["motorway", "bridge"]` gets motorway's style, and
a plain string resolves to its own style. -/
theorem C5_resolve_tag (s : String) (rest : List String) :
    get_road_style (Tag.list (s :: rest)) = get_road_style (Tag.str s) ∧
    get_road_style (Tag.list ["motorway", "bridge"]) =
      some (style_of_string "motorway") ∧
    style_of_string "motorway" = ("#00d4ff", (25 : ℚ)/10) ∧
    get_road_style (Tag.str "residential") = some (style_of_string "residential") ∧
    style_of_string "residential" = ("#023e8a", (3 : ℚ)/10) := by
  exact ⟨rfl, rfl, rfl, rfl, rfl⟩

/-- Claim C6 fails on the code at one input: `get_road_style` of an
empty list indexes `highway_type[0]` and raises `IndexError`,
modelled as `none`. -/
theorem C6_counterexample : get_road_style (Tag.list []) = none := rfl

/-- Claim C6 (amended): style resolution is total for every string
tag, every non-empty list tag, and every non-string non-list tag,
falling back to the `default` pair when the category is unregistered;
only the empty list raises. -/
theorem C6_total (s : String) (ss : List String) :
    (get_road_style (Tag.str s)).isSome = true ∧
    (get_road_style (Tag.list (s :: ss))).isSome = true ∧
    (get_road_style Tag.nan).isSome = true ∧
    (dictIndex THEME_roads s = none →
      get_road_style (Tag.str s) = some (default_style.1,
        dictGet THEME_road_widths s default_style.2)) := by
  refine ⟨rfl, rfl, rfl, ?_⟩
  intro h
  simp [get_road_style, style_of_string, dictGet, h]

theorem C6_total_witness :
    get_road_style (Tag.str "footway") = some (default_style.1,
      dictGet THEME_road_widths "footway" default_style.2) :=
  (C6_total "footway" []).2.2.2 (by decide)

/-- Claim C10: a tag that is neither a string nor a list (missing /
NaN) passes none of the six bucket masks, always passes the remainder
mask, and the remainder plot's style is the `default` color/width
pair. -/
theorem C10_nan_remainder :
    road_order.all (fun c => !(matchesBucket c Tag.nan)) = true ∧
    inRemainder Tag.nan = true ∧
    default_style = ("#014f86", (2 : ℚ)/10) ∧
    get_road_style Tag.nan = some default_style := by
  exact ⟨by decide, rfl, rfl, rfl⟩

/-- Claim C7: all three labels are horizontally centered at
`(x_min+x_max)/2`; the city label sits at `y_min + 0.06*(y_max-y_min)`
bottom-aligned, the coordinate label at `y_min + 0.03*(y_max-y_min)`,
the region label at `y_max - 0.03*(y_max-y_min)` top-aligned; for
bounds `(0,100,0,200)` the y positions are 12, 6 and 194. -/
theorem C7_label_positions (b : Bounds) (name region : String) (lat lon : ℚ) :
    (city_text b name).x = (b.xmin + b.xmax) / 2 ∧
    (coord_label b lat lon).x = (b.xmin + b.xmax) / 2 ∧
    (region_text b region).x = (b.xmin + b.xmax) / 2 ∧
    (city_text b name).y = b.ymin + (6/100) * (b.ymax - b.ymin) ∧
    (city_text b name).va = "bottom" ∧
    (coord_label b lat lon).y = b.ymin + (3/100) * (b.ymax - b.ymin) ∧
    (region_text b region).y = b.ymax - (3/100) * (b.ymax - b.ymin) ∧
    (region_text b region).va = "top" ∧
    (city_text ⟨0, 100, 0, 200⟩ name).y = 12 ∧
    (coord_label ⟨0, 100, 0, 200⟩ lat lon).y = 6 ∧
    (region_text ⟨0, 100, 0, 200⟩ region).y = 194 := by
  refine ⟨rfl, rfl, rfl, by simp [city_text]; ring, rfl, by simp [coord_label]; ring,
    by simp [region_text]; ring, rfl, ?_, ?_, ?_⟩
  · show (0 : ℚ) + (200 - 0) * (6/100) = 12
    norm_num
  · show (0 : ℚ) + (200 - 0) * (3/100) = 6
    norm_num
  · show (200 : ℚ) - (200 - 0) * (3/100) = 194
    norm_num

/-- Claim C8: the coordinate label shows the absolute values to four
decimals with hemisphere letters chosen by `lat >= 0 -> N` (else S)
and `lon < 0 -> W` (else E), e.g.
`(-33.8688, 151.2093) -> "33.8688°S  151.2093°E"` and
`(40.7128, -74.0060) -> "40.7128°N  74.0060°W"`. -/
theorem C8_coord_format (lat lon : ℚ) :
    (0 ≤ lat → 0 ≤ lon → coord_text lat lon = fmt4 lat ++ "°N  " ++ fmt4 lon ++ "°E") ∧
    (0 ≤ lat → lon < 0 → coord_text lat lon = fmt4 lat ++ "°N  " ++ fmt4 (-lon) ++ "°W") ∧
    (lat < 0 → 0 ≤ lon → coord_text lat lon = fmt4 (-lat) ++ "°S  " ++ fmt4 lon ++ "°E") ∧
    (lat < 0 → lon < 0 → coord_text lat lon = fmt4 (-lat) ++ "°S  " ++ fmt4 (-lon) ++ "°W") ∧
    coord_text (-338688/10000) (1512093/10000) = "33.8688°S  151.2093°E" ∧
    coord_text (407128/10000) (-740060/10000) = "40.7128°N  74.0060°W" := by
  refine ⟨?_, ?_, ?_, ?_, ?_, ?_⟩
  · intro h1 h2
    rw [coord_text, abs_of_nonneg h1, abs_of_nonneg h2, if_pos h1,
      if_neg (not_lt.mpr h2)]
    simp [String.append_assoc]
  · intro h1 h2
    rw [coord_text, abs_of_nonneg h1, abs_of_neg h2, if_pos h1, if_pos h2]
    simp [String.append_assoc]
  · intro h1 h2
    rw [coord_text, abs_of_neg h1, abs_of_nonneg h2, if_neg (not_le.mpr h1),
      if_neg (not_lt.mpr h2)]
    simp [String.append_assoc]
  · intro h1 h2
    rw [coord_text, abs_of_neg h1, abs_of_neg h2, if_neg (not_le.mpr h1), if_pos h2]
    simp [String.append_assoc]
  · have hlat : ((-338688 : ℚ)/10000) < 0 := by norm_num
    have hlon : (0 : ℚ) ≤ 1512093/10000 := by norm_num
    rw [coord_text, abs_of_neg hlat, abs_of_nonneg hlon, if_neg (not_le.mpr hlat),
      if_neg (not_lt.mpr hlon)]
    have e1 : fmt4 (-((-338688 : ℚ)/10000)) = "33.8688" := by
      rw [fmt4]
      have h0 : ¬(-((-338688 : ℚ)/10000) < 0) := by norm_num
      have habs : |(-((-338688 : ℚ)/10000))| = 338688/10000 := by norm_num
      have hm : (⌊((338688 : ℚ)/10000) * 10000 + 1/2⌋ : ℤ) = 338688 := by
        have e : ((338688 : ℚ)/10000) * 10000 + 1/2 = 677377/2 := by norm_num
        rw [e]
        norm_num
      rw [if_neg h0, habs, hm]
      rfl
    have e2 : fmt4 ((1512093 : ℚ)/10000) = "151.2093" := by
      rw [fmt4]
      have h0 : ¬((1512093 : ℚ)/10000 < 0) := by norm_num
      have habs : |((1512093 : ℚ)/10000)| = 1512093/10000 := by norm_num
      have hm : (⌊((1512093 : ℚ)/10000) * 10000 + 1/2⌋ : ℤ) = 1512093 := by
        have e : ((1512093 : ℚ)/10000) * 10000 + 1/2 = 3024187/2 := by norm_num
        rw [e]
        norm_num
      rw [if_neg h0, habs, hm]
      rfl
    rw [e1, e2]
    rfl
  · have hlat : (0 : ℚ) ≤ 407128/10000 := by norm_num
    have hlon : ((-740060 : ℚ)/10000) < 0 := by norm_num
    rw [coord_text, abs_of_nonneg hlat, abs_of_neg hlon, if_pos hlat, if_pos hlon]
    have e1 : fmt4 ((407128 : ℚ)/10000) = "40.7128" := by
      rw [fmt4]
      have h0 : ¬((407128 : ℚ)/10000 < 0) := by norm_num
      have habs : |((407128 : ℚ)/10000)| = 407128/10000 := by norm_num
      have hm : (⌊((407128 : ℚ)/10000) * 10000 + 1/2⌋ : ℤ) = 407128 := by
        have e : ((407128 : ℚ)/10000) * 10000 + 1/2 = 814257/2 := by norm_num
        rw [e]
        norm_num
      rw [if_neg h0, habs, hm]
      rfl
    have e2 : fmt4 (-((-740060 : ℚ)/10000)) = "74.0060" := by
      rw [fmt4]
      have h0 : ¬(-((-740060 : ℚ)/10000) < 0) := by norm_num
      have habs : |(-((-740060 : ℚ)/10000))| = 740060/10000 := by norm_num
      have hm : (⌊((740060 : ℚ)/10000) * 10000 + 1/2⌋ : ℤ) = 740060 := by
        have e : ((740060 : ℚ)/10000) * 10000 + 1/2 = 1480121/2 := by norm_num
        rw [e]
        norm_num
      rw [if_neg h0, habs, hm]
      rfl
    rw [e1, e2]
    rfl

theorem C8_coord_format_witness :
    coord_text (-338688/10000) (1512093/10000) = "33.8688°S  151.2093°E" :=
  (C8_coord_format 0 0).2.2.2.2.1

/-- Claim C3: in every successful render the layer draws form a
subsequence of the fixed order background, water, parks, residential,
tertiary, secondary, primary, trunk, motorway, remainder (one plot
call per bucket, so each bucket is finished before the next starts);
the background is first and the remainder draw, when present, is the
last layer draw of all. -/
theorem C3_draw_order (o : PlotOracle) (w p : Option (List Tag)) (edges : List Tag)
    (sl : Bool) (tr : List Event)
    (h : render_poster o w p edges sl = Except.ok tr) :
    List.Sublist (tr.filter isDraw) masterDrawOrder ∧
    (tr.filter isDraw).head? = some Event.background ∧
    (Event.remainder ∈ tr → (tr.filter isDraw).getLast? = some Event.remainder) := by
  cases hb : drawBuckets o edges road_order with
  | error e =>
    rw [render_poster, hb] at h
    cases h
  | ok bEv =>
    cases hrem : remainderEvents o edges with
    | error e =>
      rw [render_poster, hb, hrem] at h
      cases h
    | ok rEv =>
      rw [render_poster, hb, hrem] at h
      cases h
      have hbE := drawBuckets_ok o edges road_order bEv hb
      subst hbE
      have hwc := waterEvents_cases o w
      have hpc := parksEvents_cases o p
      have hrc := remainderEvents_ok o edges rEv hrem
      set wEv := waterEvents o w with hw
      set pEv := parksEvents o p with hp
      have hwf : wEv.filter isDraw = wEv := by
        rcases hwc with h1 | h1 <;> rw [h1] <;> rfl
      have hpf : pEv.filter isDraw = pEv := by
        rcases hpc with h1 | h1 <;> rw [h1] <;> rfl
      have hrf : rEv.filter isDraw = rEv := by
        rcases hrc with ⟨h1, _⟩ | ⟨h1, _⟩ <;> rw [h1] <;> rfl
      have hfilter :
          ((Event.background :: (wEv ++ pEv ++
              (road_order.filter (fun c => decide (0 < bucket_count edges c))).map Event.bucket ++
              rEv ++ labelEvents sl)).filter isDraw) =
            Event.background :: (wEv ++ pEv ++
              (road_order.filter (fun c => decide (0 < bucket_count edges c))).map Event.bucket ++
              rEv) := by
        simp only [List.filter_cons, List.filter_append, hwf, hpf, hrf,
          filter_isDraw_map_bucket, filter_isDraw_labelEvents, List.append_nil]
        rfl
      rw [hfilter]
      have hwsub : List.Sublist wEv [Event.water] := by
        rcases hwc with h1 | h1 <;> rw [h1] <;> simp
      have hpsub : List.Sublist pEv [Event.parks] := by
        rcases hpc with h1 | h1 <;> rw [h1] <;> simp
      have hrsub : List.Sublist rEv [Event.remainder] := by
        rcases hrc with ⟨h1, _⟩ | ⟨h1, _⟩ <;> rw [h1] <;> simp
      have hbsub :
          List.Sublist
            ((road_order.filter (fun c => decide (0 < bucket_count edges c))).map Event.bucket)
            (road_order.map Event.bucket) :=
        (List.filter_sublist road_order).map Event.bucket
      refine ⟨?_, rfl, ?_⟩
      · exact List.Sublist.cons₂ _ (((hwsub.append hpsub).append hbsub).append hrsub)
      · intro hmem
        have hrnonnil : rEv = [Event.remainder] := by
          rcases hrc with ⟨h1, _⟩ | ⟨h1, _⟩
          · exfalso
            subst h1
            rcases hwc with h4 | h4 <;> rcases hpc with h5 | h5 <;>
              rw [h4, h5] at hmem <;> cases sl <;>
              simp [labelEvents, List.mem_map] at hmem
          · exact h1
        rw [hrnonnil]
        have hshape : Event.background :: (wEv ++ pEv ++
            (road_order.filter (fun c => decide (0 < bucket_count edges c))).map Event.bucket ++
            [Event.remainder]) =
          (Event.background :: (wEv ++ pEv ++
            (road_order.filter (fun c => decide (0 < bucket_count edges c))).map Event.bucket)) ++
            [Event.remainder] := by
          simp
        rw [hshape]
        exact List.getLast?_concat _

theorem C3_draw_order_witness :
    List.Sublist ([Event.background, Event.bucket "motorway", Event.remainder,
        Event.labelCity, Event.labelCoords, Event.labelRegion].filter isDraw)
      masterDrawOrder ∧
    ([Event.background, Event.bucket "motorway", Event.remainder,
        Event.labelCity, Event.labelCoords, Event.labelRegion].filter isDraw).head? =
      some Event.background :=
  ⟨(C3_draw_order noFail none none [Tag.str "motorway", Tag.nan] true
      [Event.background, Event.bucket "motorway", Event.remainder,
        Event.labelCity, Event.labelCoords, Event.labelRegion] rfl).1,
   (C3_draw_order noFail none none [Tag.str "motorway", Tag.nan] true
      [Event.background, Event.bucket "motorway", Event.remainder,
        Event.labelCity, Event.labelCoords, Event.labelRegion] rfl).2.1⟩

/-- Claim C9: optional layers degrade without aborting - a failed
optional fetch yields the absent state `none`; when the road-bucket
and remainder plots do not themselves raise, the render always
succeeds, an absent or empty (or failing) water/park layer simply
produces no draw event, and every road bucket, the remainder, and all
three labels still appear in the trace. -/
theorem C9_degraded (w p : Option (List Tag)) (edges : List Tag) (o : PlotOracle)
    (hb : ∀ c, o.bucketFails c = false) (hr : o.remainderFails = false) :
    fetch_optional (Except.error ()) = none ∧
    ∃ tr, render_poster o w p edges true = Except.ok tr ∧
      ((w = none ∨ w = some [] ∨ o.waterFails = true) → Event.water ∉ tr) ∧
      ((p = none ∨ p = some [] ∨ o.parksFails = true) → Event.parks ∉ tr) ∧
      (∀ c, c ∈ road_order → 0 < bucket_count edges c → Event.bucket c ∈ tr) ∧
      (0 < remainder_count edges → Event.remainder ∈ tr) ∧
      Event.labelCity ∈ tr ∧ Event.labelCoords ∈ tr ∧ Event.labelRegion ∈ tr := by
  refine ⟨rfl, Event.background :: (waterEvents o w ++ parksEvents o p ++
      (road_order.filter (fun c => decide (0 < bucket_count edges c))).map Event.bucket ++
      (if 0 < remainder_count edges then [Event.remainder] else []) ++
      labelEvents true), ?_, ?_, ?_, ?_, ?_, ?_, ?_, ?_⟩
  · rw [render_poster, drawBuckets_noFail o edges road_order hb,
      remainderEvents_noFail o edges hr]
  · intro h
    rw [waterEvents_nil o w h]
    rcases parksEvents_cases o p with h1 | h1 <;> rw [h1] <;>
      by_cases h2 : 0 < remainder_count edges <;>
        simp [h2, labelEvents, List.mem_map]
  · intro h
    rw [parksEvents_nil o p h]
    rcases waterEvents_cases o w with h1 | h1 <;> rw [h1] <;>
      by_cases h2 : 0 < remainder_count edges <;>
        simp [h2, labelEvents, List.mem_map]
  · intro c hc hpos
    have hmem : Event.bucket c ∈
        (road_order.filter (fun x => decide (0 < bucket_count edges x))).map Event.bucket :=
      List.mem_map.mpr ⟨c, List.mem_filter.mpr ⟨hc, by simpa using hpos⟩, rfl⟩
    simp only [List.mem_cons, List.mem_append]
    tauto
  · intro h
    rw [if_pos h]
    simp
  · simp [labelEvents]
  · simp [labelEvents]
  · simp [labelEvents]


theorem C9_degraded_witness :
    fetch_optional (Except.error ()) = none :=
  (C9_degraded none none [] noFail (fun _ => rfl) rfl).1
